import Mathlib

/-!
Shallow embedding of `simulation_core.py` (the Protozoa active-inference
simulation): the `PetriDish` nutrient field and the `Protozoa` agent,
together with theorems settling the specification claims.

Randomness in the source (`random.uniform`, `random.randint`) is modelled
by passing the drawn values explicitly as parameters; floating point reals
are modelled by `ℝ`.
-/

open Real

-- The fixed hyperparameters of `PARAMS` in `simulation_core.py`.
namespace PARAMS

def target : ℝ := 0.8

def sensor_dist : ℝ := 2.0

def sensor_angle : ℝ := 0.5

def learning_rate : ℝ := 0.15

def max_speed : ℝ := 1.5

end PARAMS

/-- A nutrient source record, the dict produced by
`PetriDish._create_random_source`: position, Gaussian radius, intensity. -/
structure Source where
  x : ℝ
  y : ℝ
  radius : ℝ
  intensity : ℝ

/-- The environment: bounded rectangular domain with a list of sources
(`PetriDish.__init__` state). -/
structure PetriDish where
  width : ℝ
  height : ℝ
  sources : List Source

/-- The range of the values drawn by `PetriDish._create_random_source`:
`x ~ uniform(0, width)`, `y ~ uniform(0, height)`,
`radius ~ uniform(5.0, 15.0)`, `intensity ~ uniform(0.5, 1.0)`. -/
def valid_random_source (w h : ℝ) (s : Source) : Prop :=
  0 ≤ s.x ∧ s.x ≤ w ∧ 0 ≤ s.y ∧ s.y ≤ h ∧
    5 ≤ s.radius ∧ s.radius ≤ 15 ∧ 0.5 ≤ s.intensity ∧ s.intensity ≤ 1

/-- `PetriDish.__init__` / `_init_sources`: the dish starts with `num`
freshly drawn sources, where `num = random.randint(5, 10)` and the i-th
draw of `_create_random_source` is `gen i`. -/
def PetriDish.init (w h : ℝ) (num : ℕ) (gen : ℕ → Source) : PetriDish :=
  { width := w, height := h, sources := (List.range num).map gen }

/-- One source's Gaussian contribution inside `get_concentration`:
`intensity * exp(-dist_sq / (2 * sigma_sq))` with
`dist_sq = d_x*d_x + d_y*d_y` and `sigma_sq = radius ** 2`. -/
noncomputable def gaussian_val (s : Source) (x y : ℝ) : ℝ :=
  s.intensity * Real.exp (-((x - s.x) * (x - s.x) + (y - s.y) * (y - s.y)) / (2 * s.radius ^ 2))

/-- `PetriDish.get_concentration`: accumulates the Gaussian contributions
of all sources in a loop starting from `0.0`, then returns
`min(1.0, max(0.0, concentration))`. -/
noncomputable def PetriDish.get_concentration (d : PetriDish) (x y : ℝ) : ℝ :=
  min 1 (max 0 (d.sources.foldl (fun acc s => acc + gaussian_val s x y) 0))

/-- C1: the concentration query always lands in `[0, 1]`, for any dish state
and any query point, far outside the domain or not. -/
theorem C1_concentration_in_unit_interval (d : PetriDish) (x y : ℝ) :
    0 ≤ d.get_concentration x y ∧ d.get_concentration x y ≤ 1 := by
  unfold PetriDish.get_concentration
  constructor
  · exact le_min (by norm_num) (le_max_left 0 _)
  · exact min_le_left 1 _

/-- Transcription of the specification's formula for `concentration(x, y)`:
sum over all sources of `intensity * exp(-((x-sx)^2+(y-sy)^2)/(2*radius^2))`,
then clamp the sum to `[0, 1]`. -/
noncomputable def concentration_spec (d : PetriDish) (x y : ℝ) : ℝ :=
  min 1 (max 0
    ((d.sources.map fun s =>
      s.intensity * Real.exp (-((x - s.x) ^ 2 + (y - s.y) ^ 2) / (2 * s.radius ^ 2))).sum))

lemma foldl_add_gaussian (x y : ℝ) (l : List Source) (acc : ℝ) :
    l.foldl (fun a s => a + gaussian_val s x y) acc
      = acc + (l.map fun s => gaussian_val s x y).sum := by
  induction l generalizing acc with
  | nil => simp
  | cons s rest ih => simp only [List.foldl_cons, List.map_cons, List.sum_cons, ih]; ring

/-- The dish used in the co-located-sources test: sources of intensity
`1.0` and `0.5` at `(50, 50)` with radius `10`. -/
def colocated_dish : PetriDish :=
  { width := 100, height := 100,
    sources := [⟨50, 50, 10, 1⟩, ⟨50, 50, 10, 0.5⟩] }

/-- C2: `get_concentration` is exactly the clamp to `[0,1]` of the summed
Gaussian contributions of the spec's formula; it depends only on the source
list (purity with respect to the rest of the state); and the two co-located
sources of intensity `1.0` and `0.5` at `(50,50)`, radius `10`, yield
concentration exactly `1` at `(50,50)` (the clipped sum), not `1.5`. -/
theorem C2_concentration_formula :
    (∀ (d : PetriDish) (x y : ℝ), d.get_concentration x y = concentration_spec d x y) ∧
    (∀ (d d' : PetriDish) (x y : ℝ), d.sources = d'.sources →
      d.get_concentration x y = d'.get_concentration x y) ∧
    colocated_dish.get_concentration 50 50 = 1 := by
  have hform : ∀ (d : PetriDish) (x y : ℝ),
      d.get_concentration x y = concentration_spec d x y := by
    intro d x y
    unfold PetriDish.get_concentration concentration_spec
    rw [foldl_add_gaussian, zero_add]
    congr 1
    congr 1
    refine congrArg List.sum (List.map_congr_left ?_)
    intro s _
    unfold gaussian_val
    ring_nf
  refine ⟨hform, ?_, ?_⟩
  · intro d d' x y hs
    unfold PetriDish.get_concentration
    rw [hs]
  · unfold colocated_dish PetriDish.get_concentration gaussian_val
    norm_num [Real.exp_zero]

/-- The FEP agent (`Protozoa.__init__` state): position, heading, speed,
last-sensed concentrations, internal energy. -/
structure Protozoa where
  x : ℝ
  y : ℝ
  angle : ℝ
  speed : ℝ
  val_l : ℝ
  val_r : ℝ
  energy : ℝ

/-- The heading change `d_theta` computed inside `Protozoa.update_state`:
`(-learning_rate * error * gradient) + noise`, where
`error = (val_l + val_r)/2 - target`, `gradient = val_l - val_r`, and
`noise = u * abs(error)` with `u = random.uniform(-0.5, 0.5)`. -/
noncomputable def heading_delta (vl vr u : ℝ) : ℝ :=
  let mean_sense := (vl + vr) / 2
  let error := mean_sense - PARAMS.target
  let gradient := vl - vr
  let noise := u * |error|
  let d_theta := -PARAMS.learning_rate * error * gradient + noise
  d_theta

/-- Python's float modulo by `2 * math.pi` (`self.angle %= 2 * math.pi`):
the result takes the sign of the divisor, `a - 2π * ⌊a / 2π⌋`. -/
noncomputable def wrap_2pi (a : ℝ) : ℝ :=
  a - 2 * π * ⌊a / (2 * π)⌋

/-- `Protozoa.update_state(dish)`: the active-inference step. `u` is the
draw of `random.uniform(-0.5, 0.5)` for the tumbling noise; `width` and
`height` are the only fields of `dish` the method reads. -/
noncomputable def Protozoa.update_state (a : Protozoa) (u width height : ℝ) : Protozoa :=
  let mean_sense := (a.val_l + a.val_r) / 2
  let error := mean_sense - PARAMS.target
  let d_theta := heading_delta a.val_l a.val_r u
  let angle1 := wrap_2pi (a.angle + d_theta)
  let speed1 := PARAMS.max_speed * |error|
  let metabolic_cost := 0.0005 + 0.0025 * (speed1 / PARAMS.max_speed)
  let intake := 0.03 * mean_sense
  let energy1 := max 0 (min 1 (a.energy - metabolic_cost + intake))
  let speed2 := if energy1 ≤ 0.01 then speed1 * 0.5 else speed1
  let x1 := max 0 (min width (a.x + speed2 * Real.cos angle1))
  let y1 := max 0 (min height (a.y + speed2 * Real.sin angle1))
  { a with angle := angle1, speed := speed2, energy := energy1, x := x1, y := y1 }

/-- One simulated tick of the driver loop as seen by the agent: the sensed
values `val_l`, `val_r` are overwritten (arbitrarily, modelling `sense` on
an arbitrary dish state) and then `update_state` runs with noise draw `u`. -/
noncomputable def run_ticks (w h : ℝ) : Protozoa → List (ℝ × ℝ × ℝ) → Protozoa
  | a, [] => a
  | a, t :: ts =>
      run_ticks w h (Protozoa.update_state { a with val_l := t.1, val_r := t.2.1 } t.2.2 w h) ts

lemma update_state_energy_mem (a : Protozoa) (u w h : ℝ) :
    0 ≤ (a.update_state u w h).energy ∧ (a.update_state u w h).energy ≤ 1 := by
  simp only [Protozoa.update_state]
  exact ⟨le_max_left 0 _, max_le (by norm_num) (min_le_left 1 _)⟩

/-- C3: from any starting energy in `[0, 1]`, across any sequence of ticks
with arbitrary sensed values and noise draws, the agent's energy stays in
`[0, 1]` after every `update_state` call. -/
theorem C3_energy_invariant (a : Protozoa) (w h : ℝ)
    (h0 : 0 ≤ a.energy) (h1 : a.energy ≤ 1) (ticks : List (ℝ × ℝ × ℝ)) :
    0 ≤ (run_ticks w h a ticks).energy ∧ (run_ticks w h a ticks).energy ≤ 1 := by
  induction ticks generalizing a with
  | nil => exact ⟨h0, h1⟩
  | cons t ts ih =>
      have hstep := update_state_energy_mem
        { a with val_l := t.1, val_r := t.2.1 } t.2.2 w h
      exact ih _ hstep.1 hstep.2

/-- Witness for C3 at a concrete agent and one concrete tick. -/
theorem C3_energy_invariant_witness :
    0 ≤ (Protozoa.mk 50 50 0 0 0 0 1).energy ∧ (Protozoa.mk 50 50 0 0 0 0 1).energy ≤ 1 ∧
      (0 ≤ (run_ticks 100 100 (Protozoa.mk 50 50 0 0 0 0 1) [(0.5, 0.5, 0)]).energy ∧
        (run_ticks 100 100 (Protozoa.mk 50 50 0 0 0 0 1) [(0.5, 0.5, 0)]).energy ≤ 1) :=
  ⟨by norm_num, by norm_num,
    C3_energy_invariant (Protozoa.mk 50 50 0 0 0 0 1) 100 100
      (by norm_num) (by norm_num) [(0.5, 0.5, 0)]⟩

/-- C9: the angle stored after the modulo-2π reduction in `update_state`
is never negative (and always below `2π`): the wrap lands in a full
positive turn, for every starting heading and every noise draw. -/
theorem C9_angle_wrap_nonneg (a : Protozoa) (u w h : ℝ) :
    0 ≤ (a.update_state u w h).angle ∧ (a.update_state u w h).angle < 2 * π := by
  simp only [Protozoa.update_state]
  unfold wrap_2pi
  have h2 : (0 : ℝ) < 2 * π := by positivity
  constructor
  · have := Int.sub_floor_div_mul_nonneg
      (a.angle + heading_delta a.val_l a.val_r u) h2
    linarith [this]
  · have := Int.sub_floor_div_mul_lt
      (a.angle + heading_delta a.val_l a.val_r u) h2
    linarith [this]

lemma abs_err_sensed : |((0.2 : ℝ) + 0) / 2 - PARAMS.target| = 0.7 := by
  rw [abs_of_nonpos (by norm_num [PARAMS.target])]
  norm_num [PARAMS.target]

/-- Counterexample to C5 as stated: with `val_l = 0.2`, `val_r = 0.0`, the
noise draw `u = -0.5` (an admissible value of `random.uniform(-0.5, 0.5)`)
gives heading change `0.021 - 0.35 = -0.329 < 0`, not positive. -/
theorem C5_counterexample : heading_delta 0.2 0 (-0.5) < 0 := by
  simp only [heading_delta]
  rw [abs_err_sensed]
  norm_num [PARAMS.learning_rate, PARAMS.target]

/-- C5 (amended): with `val_l = 0.2`, `val_r = 0.0`, the resulting speed is
strictly positive for every noise draw; the heading change is positive for
every noise draw `u > -0.03` (in particular for the noiseless case), since
its deterministic part is `-lr * error * gradient = +0.021`. -/
theorem C5_control_law_sign (a : Protozoa) (u w h : ℝ)
    (hvl : a.val_l = 0.2) (hvr : a.val_r = 0) :
    0 < (a.update_state u w h).speed ∧
      (-0.03 < u → 0 < heading_delta a.val_l a.val_r u) := by
  constructor
  · simp only [Protozoa.update_state, hvl, hvr]
    rw [abs_err_sensed]
    have hm : (0 : ℝ) < PARAMS.max_speed * 0.7 := by norm_num [PARAMS.max_speed]
    split
    · linarith
    · exact hm
  · intro hu
    simp only [heading_delta, hvl, hvr]
    rw [abs_err_sensed]
    have : -PARAMS.learning_rate * ((0.2 + 0) / 2 - PARAMS.target) * (0.2 - 0)
        = 0.021 := by norm_num [PARAMS.learning_rate, PARAMS.target]
    rw [this]
    linarith

/-- Witness for C5 (amended) at a concrete agent and the noiseless draw. -/
theorem C5_control_law_sign_witness :
    (Protozoa.mk 50 50 0 0 0.2 0 1).val_l = 0.2 ∧
    (Protozoa.mk 50 50 0 0 0.2 0 1).val_r = 0 ∧
    (-0.03 : ℝ) < 0 ∧
    0 < ((Protozoa.mk 50 50 0 0 0.2 0 1).update_state 0 100 100).speed ∧
    0 < heading_delta (Protozoa.mk 50 50 0 0 0.2 0 1).val_l
        (Protozoa.mk 50 50 0 0 0.2 0 1).val_r 0 :=
  ⟨rfl, rfl, by norm_num,
    (C5_control_law_sign (Protozoa.mk 50 50 0 0 0.2 0 1) 0 100 100 rfl rfl).1,
    (C5_control_law_sign (Protozoa.mk 50 50 0 0 0.2 0 1) 0 100 100 rfl rfl).2 (by norm_num)⟩

/-- C8: after `update_state`, the position is hard-clamped into
`[0, width] × [0, height]`, for every agent state (including positions
outside the domain) and every noise draw. -/
theorem C8_position_clamped (a : Protozoa) (u w h : ℝ) (hw : 0 ≤ w) (hh : 0 ≤ h) :
    0 ≤ (a.update_state u w h).x ∧ (a.update_state u w h).x ≤ w ∧
      0 ≤ (a.update_state u w h).y ∧ (a.update_state u w h).y ≤ h := by
  simp only [Protozoa.update_state]
  exact ⟨le_max_left 0 _, max_le hw (min_le_left w _),
    le_max_left 0 _, max_le hh (min_le_left h _)⟩

/-- Witness for C8 at the out-of-bounds starting position `(105, -5)` with
`100 × 100` bounds and sensed values `0.8`. -/
theorem C8_position_clamped_witness :
    (0 : ℝ) ≤ 100 ∧
    (0 ≤ ((Protozoa.mk 105 (-5) 0 0 0.8 0.8 1).update_state 0 100 100).x ∧
      ((Protozoa.mk 105 (-5) 0 0 0.8 0.8 1).update_state 0 100 100).x ≤ 100 ∧
      0 ≤ ((Protozoa.mk 105 (-5) 0 0 0.8 0.8 1).update_state 0 100 100).y ∧
      ((Protozoa.mk 105 (-5) 0 0 0.8 0.8 1).update_state 0 100 100).y ≤ 100) :=
  ⟨by norm_num,
    C8_position_clamped (Protozoa.mk 105 (-5) 0 0 0.8 0.8 1) 0 100 100
      (by norm_num) (by norm_num)⟩

/-- The call `agent.update_state(dish)` as a transformer of the pair
(agent, dish): the method reads only `dish.width` and `dish.height` and
writes nothing into the dish. -/
noncomputable def step_with_dish (a : Protozoa) (d : PetriDish) (u : ℝ) :
    Protozoa × PetriDish :=
  (a.update_state u d.width d.height, d)

/-- C10: `update_state` leaves `val_l` and `val_r` unchanged, leaves the
dish untouched, and depends on the dish only through `width` and `height`;
only `angle`, `speed`, `energy`, `x`, `y` are rewritten. -/
theorem C10_frame_condition (a : Protozoa) (d : PetriDish) (u : ℝ) :
    (step_with_dish a d u).2 = d ∧
    (step_with_dish a d u).1.val_l = a.val_l ∧
    (step_with_dish a d u).1.val_r = a.val_r ∧
    (∀ d' : PetriDish, d'.width = d.width → d'.height = d.height →
      (step_with_dish a d' u).1 = (step_with_dish a d u).1) := by
  refine ⟨rfl, rfl, rfl, ?_⟩
  intro d' hw hh
  simp only [step_with_dish, hw, hh]

/-- Witness for C10 at a concrete agent and two dishes sharing bounds. -/
theorem C10_frame_condition_witness :
    (step_with_dish (Protozoa.mk 50 50 0 0 0 0 1) colocated_dish 0).2 = colocated_dish ∧
    (step_with_dish (Protozoa.mk 50 50 0 0 0 0 1) colocated_dish 0).1.val_l = 0 ∧
    (step_with_dish (Protozoa.mk 50 50 0 0 0 0 1) colocated_dish 0).1.val_r = 0 ∧
    (PetriDish.mk 100 100 []).width = colocated_dish.width ∧
    (PetriDish.mk 100 100 []).height = colocated_dish.height ∧
    (step_with_dish (Protozoa.mk 50 50 0 0 0 0 1) (PetriDish.mk 100 100 []) 0).1
      = (step_with_dish (Protozoa.mk 50 50 0 0 0 0 1) colocated_dish 0).1 :=
  ⟨(C10_frame_condition (Protozoa.mk 50 50 0 0 0 0 1) colocated_dish 0).1,
    (C10_frame_condition (Protozoa.mk 50 50 0 0 0 0 1) colocated_dish 0).2.1,
    (C10_frame_condition (Protozoa.mk 50 50 0 0 0 0 1) colocated_dish 0).2.2.1,
    rfl, rfl,
    (C10_frame_condition (Protozoa.mk 50 50 0 0 0 0 1) colocated_dish 0).2.2.2
      (PetriDish.mk 100 100 []) rfl rfl⟩

/-- One iteration of the loop body of `PetriDish.update` on source `s`:
decay `intensity` by `0.995`, drift the position by the Brownian draws
`dx, dy` (each `random.uniform(-0.5, 0.5)`), clamp the position into the
domain, then — if the decayed intensity fell below the respawn threshold
`0.05` — replace the whole record by the fresh draw `repl` of
`_create_random_source`. -/
noncomputable def update_source (w h : ℝ) (s : Source) (dx dy : ℝ) (repl : Source) : Source :=
  let s1 : Source := { s with intensity := s.intensity * 0.995 }
  let x1 := max 0 (min w (s1.x + dx))
  let y1 := max 0 (min h (s1.y + dy))
  let s2 : Source := { s1 with x := x1, y := y1 }
  if s2.intensity < 0.05 then repl else s2

/-- The `for i, source in enumerate(self.sources)` loop of
`PetriDish.update`, starting at index `i`: `rand j` packages the random
draws consumed for slot `j` (Brownian `dx`, `dy`, and the potential
replacement source). -/
noncomputable def update_sources (w h : ℝ) (rand : ℕ → ℝ × ℝ × Source) :
    ℕ → List Source → List Source
  | _, [] => []
  | i, s :: rest =>
      update_source w h s (rand i).1 (rand i).2.1 (rand i).2.2 ::
        update_sources w h rand (i + 1) rest

/-- `PetriDish.update`: entropy, Brownian motion and regrowth applied to
every source slot in place. -/
noncomputable def PetriDish.update (d : PetriDish) (rand : ℕ → ℝ × ℝ × Source) : PetriDish :=
  { d with sources := update_sources d.width d.height rand 0 d.sources }

lemma update_sources_length (w h : ℝ) (rand : ℕ → ℝ × ℝ × Source) :
    ∀ (l : List Source) (i : ℕ), (update_sources w h rand i l).length = l.length := by
  intro l
  induction l with
  | nil => intro i; rfl
  | cons s rest ih => intro i; simp [update_sources, ih]

lemma update_sources_getElem? (w h : ℝ) (rand : ℕ → ℝ × ℝ × Source) :
    ∀ (l : List Source) (i j : ℕ),
      (update_sources w h rand i l)[j]? = l[j]?.map
        (fun s => update_source w h s (rand (i + j)).1 (rand (i + j)).2.1 (rand (i + j)).2.2) := by
  intro l
  induction l with
  | nil => intro i j; simp [update_sources]
  | cons s rest ih =>
      intro i j
      cases j with
      | zero => simp [update_sources]
      | succ j =>
          simp only [update_sources, List.getElem?_cons_succ]
          have hidx : i + (j + 1) = i + 1 + j := by omega
          rw [hidx]
          exact ih (i + 1) j

/-- C4: a dish constructed with `num = random.randint(5, 10)` sources keeps
`5 ≤ |sources| ≤ 10` across arbitrarily many `update` calls — every update
rewrites each slot in place and never adds or removes one. -/
theorem C4_source_count_invariant (w h : ℝ) (num : ℕ) (gen : ℕ → Source)
    (rands : List (ℕ → ℝ × ℝ × Source)) (h5 : 5 ≤ num) (h10 : num ≤ 10) :
    5 ≤ (rands.foldl PetriDish.update (PetriDish.init w h num gen)).sources.length ∧
      (rands.foldl PetriDish.update (PetriDish.init w h num gen)).sources.length ≤ 10 := by
  have hstep : ∀ (d : PetriDish) (r : ℕ → ℝ × ℝ × Source),
      (d.update r).sources.length = d.sources.length := by
    intro d r
    simp [PetriDish.update, update_sources_length]
  have hfold : ∀ (rs : List (ℕ → ℝ × ℝ × Source)) (d : PetriDish),
      (rs.foldl PetriDish.update d).sources.length = d.sources.length := by
    intro rs
    induction rs with
    | nil => intro d; rfl
    | cons r rest ih => intro d; rw [List.foldl_cons, ih, hstep]
  rw [hfold]
  simp only [PetriDish.init, List.length_map, List.length_range]
  exact ⟨h5, h10⟩

/-- Witness for C4 with `num = 7`, a constant source generator, and no
update call. -/
theorem C4_source_count_invariant_witness :
    5 ≤ 7 ∧ 7 ≤ 10 ∧
      (5 ≤ (List.foldl PetriDish.update
            (PetriDish.init 100 100 7 (fun _ => Source.mk 1 1 10 1)) []).sources.length ∧
        (List.foldl PetriDish.update
            (PetriDish.init 100 100 7 (fun _ => Source.mk 1 1 10 1)) []).sources.length ≤ 10) :=
  ⟨by norm_num, by norm_num,
    C4_source_count_invariant 100 100 7 (fun _ => Source.mk 1 1 10 1) []
      (by norm_num) (by norm_num)⟩

/-- A source about to die: positive intensity `0.01`, below the respawn
threshold. -/
def dying_source : Source := ⟨50, 50, 10, 0.01⟩

/-- A fresh draw of `_create_random_source` on a `100 × 100` dish. -/
def fresh_source : Source := ⟨25, 25, 10, 0.75⟩

/-- Random draws for a dish update: no Brownian drift, replacement
`fresh_source`. -/
def rand_fresh : ℕ → ℝ × ℝ × Source := fun _ => (0, 0, fresh_source)

/-- A `100 × 100` dish holding only `dying_source`. -/
def dying_dish : PetriDish := ⟨100, 100, [dying_source]⟩

lemma update_source_of_lt (w h : ℝ) (s : Source) (dx dy : ℝ) (repl : Source)
    (hc : s.intensity * 0.995 < 0.05) :
    update_source w h s dx dy repl = repl := by
  simp only [update_source]
  rw [if_pos hc]

lemma update_source_of_ge (w h : ℝ) (s : Source) (dx dy : ℝ) (repl : Source)
    (hc : 0.05 ≤ s.intensity * 0.995) :
    (update_source w h s dx dy repl).intensity = s.intensity * 0.995 := by
  simp only [update_source]
  rw [if_neg (not_lt.mpr hc)]

/-- Counterexample to C6 as stated: `dying_source` has intensity
`0.01 > 0`, yet after one `update` its slot holds `fresh_source` with
intensity `0.75`, which is not smaller — the decayed value `0.00995` fell
below the respawn threshold, so the slot was replaced by a fresh draw, not
decayed. -/
theorem C6_counterexample :
    0 < dying_source.intensity ∧
    dying_dish.sources[0]? = some dying_source ∧
    (dying_dish.update rand_fresh).sources[0]? = some fresh_source ∧
    ¬ fresh_source.intensity < dying_source.intensity := by
  refine ⟨by norm_num [dying_source], rfl, ?_, by norm_num [fresh_source, dying_source]⟩
  show (update_sources 100 100 rand_fresh 0 [dying_source])[0]? = some fresh_source
  rw [update_sources_getElem?]
  show some (update_source 100 100 dying_source 0 0 fresh_source) = some fresh_source
  rw [update_source_of_lt]
  norm_num [dying_source]

/-- C6 (amended): a source slot whose decayed intensity
`intensity * 0.995` stays at or above the respawn threshold `0.05`, and
whose intensity is positive, holds a strictly smaller intensity after one
`update`; if the decayed intensity falls below the threshold the slot is
instead replaced by a fresh draw (see the counterexample). -/
theorem C6_intensity_decays (d : PetriDish) (rand : ℕ → ℝ × ℝ × Source)
    (j : ℕ) (s : Source) (hs : d.sources[j]? = some s)
    (hpos : 0 < s.intensity) (hth : 0.05 ≤ s.intensity * 0.995) :
    ∃ s', (d.update rand).sources[j]? = some s' ∧ s'.intensity < s.intensity := by
  refine ⟨update_source d.width d.height s (rand j).1 (rand j).2.1 (rand j).2.2, ?_, ?_⟩
  · show (update_sources d.width d.height rand 0 d.sources)[j]? = _
    rw [update_sources_getElem?]
    simp only [Nat.zero_add, hs]
    rfl
  · rw [update_source_of_ge _ _ _ _ _ _ hth]
    nlinarith

/-- Witness for C6 (amended): a healthy source of intensity `0.9` in a
`100 × 100` dish strictly loses intensity over one `update`. -/
theorem C6_intensity_decays_witness :
    (PetriDish.mk 100 100 [Source.mk 50 50 10 0.9]).sources[0]?
        = some (Source.mk 50 50 10 0.9) ∧
    0 < (Source.mk 50 50 10 0.9).intensity ∧
    (0.05 : ℝ) ≤ (Source.mk 50 50 10 0.9).intensity * 0.995 ∧
    (∃ s', ((PetriDish.mk 100 100 [Source.mk 50 50 10 0.9]).update rand_fresh).sources[0]?
        = some s' ∧ s'.intensity < (Source.mk 50 50 10 0.9).intensity) :=
  ⟨rfl, by norm_num, by norm_num,
    C6_intensity_decays (PetriDish.mk 100 100 [Source.mk 50 50 10 0.9]) rand_fresh 0
      (Source.mk 50 50 10 0.9) rfl (by norm_num) (by norm_num)⟩

/-- C7: a source slot whose intensity sits below the respawn threshold
`0.05` before the call holds, after one `update`, a fresh draw of
`_create_random_source` — whose intensity lies in `[0.5, 1]` and is in
particular above `0.1`. -/
theorem C7_respawn_above_threshold (d : PetriDish) (rand : ℕ → ℝ × ℝ × Source)
    (j : ℕ) (s : Source) (hs : d.sources[j]? = some s)
    (hlow : s.intensity < 0.05)
    (hvalid : valid_random_source d.width d.height (rand j).2.2) :
    ∃ s', (d.update rand).sources[j]? = some s' ∧ 0.1 < s'.intensity := by
  refine ⟨(rand j).2.2, ?_, ?_⟩
  · show (update_sources d.width d.height rand 0 d.sources)[j]? = _
    rw [update_sources_getElem?]
    simp only [Nat.zero_add, hs]
    show some (update_source d.width d.height s (rand j).1 (rand j).2.1 (rand j).2.2)
        = some (rand j).2.2
    rw [update_source_of_lt]
    nlinarith
  · have h05 : (0.5 : ℝ) ≤ (rand j).2.2.intensity := hvalid.2.2.2.2.2.2.1
    linarith

/-- Witness for C7: `dying_dish` holds `dying_source` (intensity `0.01`,
below threshold); after one `update` with replacement draw `fresh_source`
the slot's intensity exceeds `0.1`. -/
theorem C7_respawn_above_threshold_witness :
    dying_dish.sources[0]? = some dying_source ∧
    dying_source.intensity < 0.05 ∧
    valid_random_source dying_dish.width dying_dish.height (rand_fresh 0).2.2 ∧
    (∃ s' : Source, (dying_dish.update rand_fresh).sources[0]? = some s'
      ∧ (0.1 : ℝ) < s'.intensity) :=
  ⟨rfl, by norm_num [dying_source],
    by norm_num [valid_random_source, rand_fresh, fresh_source, dying_dish],
    C7_respawn_above_threshold dying_dish rand_fresh 0 dying_source rfl
      (by norm_num [dying_source])
      (by norm_num [valid_random_source, rand_fresh, fresh_source, dying_dish])⟩

/-- Witness for C2 at the co-located dish and a dish sharing its source
list. -/
theorem C2_concentration_formula_witness :
    colocated_dish.get_concentration 50 50 = concentration_spec colocated_dish 50 50 ∧
    (PetriDish.mk 100 100 colocated_dish.sources).sources = colocated_dish.sources ∧
    (PetriDish.mk 100 100 colocated_dish.sources).get_concentration 0 0
      = colocated_dish.get_concentration 0 0 ∧
    colocated_dish.get_concentration 50 50 = 1 :=
  ⟨C2_concentration_formula.1 colocated_dish 50 50, rfl,
    C2_concentration_formula.2.1 (PetriDish.mk 100 100 colocated_dish.sources)
      colocated_dish 0 0 rfl,
    C2_concentration_formula.2.2⟩
